import Mathlib

/-!
Verification of the response-normalization and report-rendering core of the
mcp-github-repos server (src/utils.ts, src/github.ts, src/mcp-server.ts).

JavaScript strings are modelled as lists of characters (`Str`), so that every
definition is executable by kernel reduction.  JavaScript values of type
`string | undefined` (or `string | null`) are modelled as `Option Str`; where a
field can independently be `undefined` or `null` and the distinction matters,
it is modelled as `Option (Option Str)` (outer `none` = absent/undefined,
`some none` = null).  JavaScript truthiness on strings (the empty string is
falsy) is modelled explicitly by `strTruthy`/`optTruthy`.
-/

/-- JavaScript strings, modelled as lists of characters. -/
abbrev Str := List Char

/-- JavaScript truthiness of a string: every string except `""` is truthy. -/
def strTruthy (s : Str) : Bool := !s.isEmpty

/-- JavaScript truthiness of a `string | null | undefined` value:
`null`/`undefined` and the empty string are falsy. -/
def optTruthy (s : Option Str) : Bool := (s.map strTruthy).getD false

/-- JavaScript `a || b` for a `string | null | undefined` left operand. -/
def jsOr (s : Option Str) (d : Str) : Str := if optTruthy s then s.getD [] else d

/-- Model of JavaScript `String.prototype.split` with a single-character
separator: `"".split(c)` is `[""]`, separators at the ends produce empty
segments. -/
def splitOnChar (c : Char) : Str → List Str
  | [] => [[]]
  | x :: xs =>
    if x = c then [] :: splitOnChar c xs
    else match splitOnChar c xs with
      | [] => [[x]]
      | seg :: rest => (x :: seg) :: rest

/-- Decimal digits of a natural number (auxiliary, fuel-driven so that it
reduces by `decide`). -/
def natToStrAux : Nat → Nat → Str
  | 0, _ => []
  | fuel + 1, n =>
    if n < 10 then [Nat.digitChar n]
    else natToStrAux fuel (n / 10) ++ [Nat.digitChar (n % 10)]

/-- Decimal rendering of a natural number, as in JavaScript template
interpolation of a non-negative number. -/
def natToStr (n : Nat) : Str := natToStrAux (n + 1) n

/-- Decimal rendering of an integer. -/
def intToStr (n : Int) : Str :=
  if n < 0 then '-' :: natToStr n.natAbs else natToStr n.natAbs

/-- JavaScript `Array.prototype.join` with a separator. -/
def joinWith (sep : Str) : List Str → Str
  | [] => []
  | [x] => x
  | x :: y :: xs => x ++ sep ++ joinWith sep (y :: xs)

/-- JavaScript `.filter(Boolean)` over an array of `string | null` entries:
keeps exactly the truthy entries (dropping `null` and empty strings). -/
def jsFilterBoolean (lines : List (Option Str)) : List Str :=
  lines.filterMap fun o => o.bind fun s => if s.isEmpty then none else some s

/-- Interpolation of a possibly-`undefined` string into a JavaScript template
literal: `undefined` prints as `"undefined"`. -/
def jsShowOpt (s : Option Str) : Str := s.getD ("undefined".data)

/-- Interpolation of a possibly-`undefined` number into a JavaScript template
literal. -/
def jsShowOptInt (n : Option Int) : Str := (n.map intToStr).getD ("undefined".data)

/-- Interpolation of a possibly-`null` string into a JavaScript template
literal: `null` prints as `"null"`. -/
def jsShowNullable (s : Option Str) : Str := s.getD ("null".data)

/-- The `owner`/`repo` pair produced by `parseRepository` (src/github.ts). -/
structure RepoRef where
  owner : Str
  repo : Str
deriving DecidableEq

/-- The error message thrown by `parseRepository` (src/github.ts, lines
179-181). -/
def invalidRepoMsg (repository : Str) : Str :=
  "Invalid repository format: \"".data ++ repository ++
    "\". Expected \"owner/repo\" format (e.g., \"vercel/ai\", \"facebook/react\").".data

/-- Function `parseRepository` (src/github.ts, lines 171-182): split the argument on
`"/"`; exactly two segments succeed, anything else throws. -/
def parseRepository (repository : Str) : Except Str RepoRef :=
  let parts := splitOnChar '/' repository
  if h : parts.length = 2 then
    .ok { owner := parts.get ⟨0, by omega⟩, repo := parts.get ⟨1, by omega⟩ }
  else
    .error (invalidRepoMsg repository)

/-- Raw GitHub user object as consumed by `parseUser`: fields may be absent at
runtime (the source defaults each with `??`). -/
structure RawUser where
  login : Option Str
  html_url : Option Str
deriving DecidableEq

/-- Normalized user (`IssueUser` in src/github.ts). -/
structure IssueUser where
  login : Str
  htmlUrl : Str
deriving DecidableEq

/-- Function `parseUser` (src/utils.ts, lines 63-68): `user?.login ?? "unknown"`,
`user?.html_url ?? ""`. -/
def parseUser (user : Option RawUser) : IssueUser :=
  { login := (user.bind RawUser.login).getD ("unknown".data)
    htmlUrl := (user.bind RawUser.html_url).getD [] }

/-- The spec's `normalizeUser` (spec §4.1): the default User for null input,
field-wise pass-through with defaulting otherwise. -/
def spec_normalizeUser (user : Option RawUser) : IssueUser :=
  match user with
  | none => { login := "unknown".data, htmlUrl := [] }
  | some u => { login := u.login.getD ("unknown".data), htmlUrl := u.html_url.getD [] }

/-- Raw GitHub label object: `name?: string`, `color?: string | null`,
`description?: string | null` (outer `none` = absent, `some none` = null). -/
structure RawLabel where
  name : Option Str
  color : Option (Option Str)
  description : Option (Option Str)
deriving DecidableEq

/-- Normalized label (`IssueLabel` in src/github.ts). -/
structure IssueLabel where
  name : Str
  color : Str
  description : Option Str
deriving DecidableEq

/-- Function `parseLabel` (src/utils.ts, lines 70-80): `name ?? ""`, `color ?? ""`,
`description ?? null` (`??` replaces both `undefined` and `null`). -/
def parseLabel (label : RawLabel) : IssueLabel :=
  { name := label.name.getD []
    color := (match label.color with | some (some v) => v | _ => [])
    description := (match label.description with | some (some v) => some v | _ => none) }

/-- A raw label entry, which GitHub returns either as a bare string or as an
object. -/
abbrev RawLabelEntry := Sum Str RawLabel

/-- Function `parseLabels` (src/utils.ts, lines 82-88): element-wise map, string-form
labels become a name with empty color and null description. -/
def parseLabels (labels : List RawLabelEntry) : List IssueLabel :=
  labels.map fun label =>
    match label with
    | .inl s => { name := s, color := [], description := none }
    | .inr l => parseLabel l

/-- The spec's `normalizeLabel` (spec §4.1) on a single string-or-object
entry: a string is the label name with no color/description, an object is
normalized field-wise. -/
def spec_normalizeLabel (entry : RawLabelEntry) : IssueLabel :=
  match entry with
  | .inl s => { name := s, color := [], description := none }
  | .inr l => parseLabel l

/-- A milestone reference carrying only a title, as in timeline events. -/
structure TitleOnly where
  title : Str
deriving DecidableEq

/-- The `rename` payload of a `renamed` timeline event (source fields `from`
and `to`, renamed here because `from` is a Lean keyword). -/
structure RawRename where
  from_ : Str
  to_ : Str
deriving DecidableEq

/-- An issue reference (`number` and `title`), used by `cross-referenced`
timeline events. -/
structure IssueRef where
  number : Int
  title : Str
deriving DecidableEq

/-- The `source` payload of a `cross-referenced` timeline event; its nested
`issue` may be absent. -/
structure RawSource where
  issue : Option IssueRef
deriving DecidableEq

/-- A raw timeline event as typed in `parseTimelineEvents` (src/utils.ts,
lines 94-106): every payload field may be absent. -/
structure RawTimelineEvent where
  event : Option Str
  created_at : Option Str
  actor : Option RawUser
  body : Option Str
  label : Option RawLabel
  assignee : Option RawUser
  milestone : Option TitleOnly
  rename : Option RawRename
  source : Option RawSource
  commit_id : Option Str
  commit_url : Option Str
deriving DecidableEq

/-- The `source` field of a normalized timeline event. -/
structure EventSource where
  issue : IssueRef
deriving DecidableEq

/-- Normalized timeline event (`IssueTimelineEvent` in src/github.ts, lines
89-101); optional fields are absent (`none`) unless the dispatch populates
them. -/
structure IssueTimelineEvent where
  type : Str
  createdAt : Str
  actor : Option IssueUser
  body : Option Str
  label : Option IssueLabel
  assignee : Option IssueUser
  milestone : Option TitleOnly
  rename : Option RawRename
  source : Option EventSource
  commitId : Option Str
  commitUrl : Option Str
deriving DecidableEq

/-- The `base` record built first for every timeline event (src/utils.ts,
lines 108-112): type defaults to `"unknown"`, createdAt to `""`, actor is
normalized only when present. -/
def timelineBase (event : RawTimelineEvent) : IssueTimelineEvent :=
  { type := event.event.getD ("unknown".data)
    createdAt := event.created_at.getD []
    actor := event.actor.map fun a => parseUser (some a)
    body := none, label := none, assignee := none, milestone := none
    rename := none, source := none, commitId := none, commitUrl := none }

/-- One step of `parseTimelineEvents` (src/utils.ts, lines 93-157): the base
record followed by the source's sequence of type-conditional field
assignments. -/
def parseTimelineEvent (event : RawTimelineEvent) : IssueTimelineEvent :=
  let base := timelineBase event
  let eventType := event.event
  let base := if eventType = some ("commented".data) ∨ eventType = some ("reviewed".data) then
      { base with body := some (event.body.getD []) } else base
  let base := if eventType = some ("labeled".data) ∨ eventType = some ("unlabeled".data) then
      (match event.label with
        | some l => { base with label := some (parseLabel l) }
        | none => base)
    else base
  let base := if eventType = some ("assigned".data) ∨ eventType = some ("unassigned".data) then
      (match event.assignee with
        | some a => { base with assignee := some (parseUser (some a)) }
        | none => base)
    else base
  let base := if eventType = some ("milestoned".data) ∨ eventType = some ("demilestoned".data) then
      (match event.milestone with
        | some m => { base with milestone := some { title := m.title } }
        | none => base)
    else base
  let base := if eventType = some ("renamed".data) then
      (match event.rename with
        | some r => { base with rename := some r }
        | none => base)
    else base
  let base := if eventType = some ("cross-referenced".data) then
      (match event.source.bind RawSource.issue with
        | some i => { base with source := some { issue := { number := i.number, title := i.title } } }
        | none => base)
    else base
  let base := if eventType = some ("referenced".data) ∨ eventType = some ("committed".data) then
      { base with commitId := event.commit_id, commitUrl := event.commit_url } else base
  base

/-- Function `parseTimelineEvents` (src/utils.ts, lines 90-158): element-wise map over
the raw event sequence. -/
def parseTimelineEvents (events : List RawTimelineEvent) : List IssueTimelineEvent :=
  events.map parseTimelineEvent

/-- The spec's `normalizeTimelineEvents` dispatch table (spec §4.1), written
as a closed switch over the discriminator: base fields always, exactly the
table's extra fields per discriminator, base only for anything else. -/
def specTimelineEvent (event : RawTimelineEvent) : IssueTimelineEvent :=
  let base := timelineBase event
  match event.event with
  | none => base
  | some t =>
    if t = "commented".data ∨ t = "reviewed".data then
      { base with body := some (event.body.getD []) }
    else if t = "labeled".data ∨ t = "unlabeled".data then
      { base with label := event.label.map parseLabel }
    else if t = "assigned".data ∨ t = "unassigned".data then
      { base with assignee := event.assignee.map fun a => parseUser (some a) }
    else if t = "milestoned".data ∨ t = "demilestoned".data then
      { base with milestone := event.milestone.map fun m => { title := m.title } }
    else if t = "renamed".data then
      { base with rename := event.rename }
    else if t = "cross-referenced".data then
      { base with source := (event.source.bind RawSource.issue).map fun i => { issue := i } }
    else if t = "referenced".data ∨ t = "committed".data then
      { base with commitId := event.commit_id, commitUrl := event.commit_url }
    else base

/-- One step of the inline timeline map of `getPullRequest` (src/github.ts,
lines 565-599): only `commented` (guarded by a `"body" in event` check),
`labeled`/`unlabeled`, and `reviewed` get extra fields. -/
def prTimelineEvent (event : RawTimelineEvent) : IssueTimelineEvent :=
  let base := timelineBase event
  let base := if event.event = some ("commented".data) ∧ event.body.isSome = true then
      { base with body := some (event.body.getD []) } else base
  let base := if event.event = some ("labeled".data) ∨ event.event = some ("unlabeled".data) then
      (match event.label with
        | some l => { base with label := some (parseLabel l) }
        | none => base)
    else base
  let base := if event.event = some ("reviewed".data) then
      { base with body := some (event.body.getD []) } else base
  base

/-- The inline timeline map of `getPullRequest` over a whole event sequence. -/
def prTimelineEvents (events : List RawTimelineEvent) : List IssueTimelineEvent :=
  events.map prTimelineEvent

/-- Function `parseTimelineEvent` implements the spec's dispatch table exactly. -/
theorem parseTimelineEvent_eq_spec (event : RawTimelineEvent) :
    parseTimelineEvent event = specTimelineEvent event := by
  obtain ⟨ev, ca, act, bd, lb, asg, ms, rn, src, cid, curl⟩ := event
  cases ev with
  | none => rfl
  | some t =>
    by_cases h1 : t = "commented".data
    · subst h1; rfl
    by_cases h2 : t = "reviewed".data
    · subst h2; rfl
    by_cases h3 : t = "labeled".data
    · subst h3; cases lb <;> rfl
    by_cases h4 : t = "unlabeled".data
    · subst h4; cases lb <;> rfl
    by_cases h5 : t = "assigned".data
    · subst h5; cases asg <;> rfl
    by_cases h6 : t = "unassigned".data
    · subst h6; cases asg <;> rfl
    by_cases h7 : t = "milestoned".data
    · subst h7; cases ms <;> rfl
    by_cases h8 : t = "demilestoned".data
    · subst h8; cases ms <;> rfl
    by_cases h9 : t = "renamed".data
    · subst h9; cases rn <;> rfl
    by_cases h10 : t = "cross-referenced".data
    · subst h10
      cases src with
      | none => rfl
      | some s =>
        obtain ⟨iss⟩ := s
        cases iss <;> rfl
    by_cases h11 : t = "referenced".data
    · subst h11; rfl
    by_cases h12 : t = "committed".data
    · subst h12; rfl
    simp [parseTimelineEvent, specTimelineEvent, h1, h2, h3, h4, h5, h6, h7, h8, h9, h10,
      h11, h12]

/-- C1 counterexample: the pull-request inline timeline map does not populate
the §4.1 dispatch-table fields for an `assigned` event — the assignee stays
absent even though the raw assignee is present (and the map therefore
disagrees with the dispatch table implemented by `parseTimelineEvents`). -/
theorem prTimelineEvent_assigned_counterexample :
    (prTimelineEvent
      { event := some ("assigned".data), created_at := some ("2024-01-15T10:30:00Z".data)
        actor := none, body := none, label := none
        assignee := some ⟨some ("alice".data), some ("https://g".data)⟩
        milestone := none, rename := none, source := none
        commit_id := none, commit_url := none }).assignee = none ∧
    (some (⟨some ("alice".data), some ("https://g".data)⟩ : RawUser)).isSome = true ∧
    prTimelineEvent
      { event := some ("assigned".data), created_at := some ("2024-01-15T10:30:00Z".data)
        actor := none, body := none, label := none
        assignee := some ⟨some ("alice".data), some ("https://g".data)⟩
        milestone := none, rename := none, source := none
        commit_id := none, commit_url := none } ≠
    specTimelineEvent
      { event := some ("assigned".data), created_at := some ("2024-01-15T10:30:00Z".data)
        actor := none, body := none, label := none
        assignee := some ⟨some ("alice".data), some ("https://g".data)⟩
        milestone := none, rename := none, source := none
        commit_id := none, commit_url := none } := by
  refine ⟨rfl, rfl, ?_⟩
  decide

/-- C1 (amended): `parseTimelineEvents` preserves length and order and
implements exactly the §4.1 dispatch table; the pull-request inline timeline
map also preserves length, order and the base fields (type defaulting to
`"unknown"`, createdAt to `""`, actor present iff the raw actor is present),
but populates extra fields only for `reviewed`, `labeled`, `unlabeled`, and
for `commented` exactly when the raw body key is present — a `commented`
event without a body key, like every other discriminator, keeps the base
fields alone. -/
theorem timelineNormalizer_dispatch :
    (∀ events, parseTimelineEvents events = events.map specTimelineEvent) ∧
    (∀ events, (prTimelineEvents events).length = events.length) ∧
    (∀ event, (prTimelineEvent event).type = event.event.getD ("unknown".data) ∧
      (prTimelineEvent event).createdAt = event.created_at.getD [] ∧
      (prTimelineEvent event).actor = event.actor.map fun a => parseUser (some a)) ∧
    (∀ event, (event.event = some ("reviewed".data) ∨ event.event = some ("labeled".data) ∨
      event.event = some ("unlabeled".data)) →
      prTimelineEvent event = specTimelineEvent event) ∧
    (∀ event, event.event = some ("commented".data) → event.body.isSome = true →
      prTimelineEvent event = specTimelineEvent event) ∧
    (∀ event, event.event = some ("commented".data) → event.body = none →
      prTimelineEvent event = timelineBase event) ∧
    (∀ event, event.event ≠ some ("commented".data) → event.event ≠ some ("reviewed".data) →
      event.event ≠ some ("labeled".data) → event.event ≠ some ("unlabeled".data) →
      prTimelineEvent event = timelineBase event) := by
  refine ⟨?_, ?_, ?_, ?_, ?_, ?_, ?_⟩
  · exact fun events =>
      List.map_congr_left fun e _ => parseTimelineEvent_eq_spec e
  · intro events
    simp [prTimelineEvents]
  · intro event
    obtain ⟨ev, ca, act, bd, lb, asg, ms, rn, src, cid, curl⟩ := event
    refine ⟨?_, ?_, ?_⟩ <;>
      (simp only [prTimelineEvent, timelineBase]; split_ifs <;> cases lb <;> rfl)
  · intro event h
    obtain ⟨ev, ca, act, bd, lb, asg, ms, rn, src, cid, curl⟩ := event
    simp only at h
    rcases h with h | h | h
    · subst h; rfl
    · subst h; cases lb <;> rfl
    · subst h; cases lb <;> rfl
  · intro event h hb
    obtain ⟨ev, ca, act, bd, lb, asg, ms, rn, src, cid, curl⟩ := event
    simp only at h hb
    subst h
    cases bd with
    | none => simp at hb
    | some b => rfl
  · intro event h hb
    obtain ⟨ev, ca, act, bd, lb, asg, ms, rn, src, cid, curl⟩ := event
    simp only at h hb
    subst h
    subst hb
    rfl
  · intro event h1 h2 h3 h4
    simp [prTimelineEvent, timelineBase, h1, h2, h3, h4]

/-- Witness for C1 at concrete events: a `reviewed` event agrees with the
dispatch table, a `commented` event with a body key agrees, a `commented`
event without a body key keeps only the base fields, and a `closed` event
keeps only the base fields. -/
theorem timelineNormalizer_dispatch_witness :
    prTimelineEvent
      { event := some ("reviewed".data), created_at := some ("t".data), actor := none
        body := some ("lgtm".data), label := none, assignee := none, milestone := none
        rename := none, source := none, commit_id := none, commit_url := none } =
    specTimelineEvent
      { event := some ("reviewed".data), created_at := some ("t".data), actor := none
        body := some ("lgtm".data), label := none, assignee := none, milestone := none
        rename := none, source := none, commit_id := none, commit_url := none } ∧
    prTimelineEvent
      { event := some ("commented".data), created_at := some ("t".data), actor := none
        body := some ("hi".data), label := none, assignee := none, milestone := none
        rename := none, source := none, commit_id := none, commit_url := none } =
    specTimelineEvent
      { event := some ("commented".data), created_at := some ("t".data), actor := none
        body := some ("hi".data), label := none, assignee := none, milestone := none
        rename := none, source := none, commit_id := none, commit_url := none } ∧
    prTimelineEvent
      { event := some ("commented".data), created_at := some ("t".data), actor := none
        body := none, label := none, assignee := none, milestone := none
        rename := none, source := none, commit_id := none, commit_url := none } =
    timelineBase
      { event := some ("commented".data), created_at := some ("t".data), actor := none
        body := none, label := none, assignee := none, milestone := none
        rename := none, source := none, commit_id := none, commit_url := none } ∧
    prTimelineEvent
      { event := some ("closed".data), created_at := some ("t".data), actor := none
        body := none, label := none, assignee := none, milestone := none
        rename := none, source := none, commit_id := none, commit_url := none } =
    timelineBase
      { event := some ("closed".data), created_at := some ("t".data), actor := none
        body := none, label := none, assignee := none, milestone := none
        rename := none, source := none, commit_id := none, commit_url := none } :=
  ⟨timelineNormalizer_dispatch.2.2.2.1 _ (Or.inl (by decide)),
    timelineNormalizer_dispatch.2.2.2.2.1 _ (by decide) (by decide),
    timelineNormalizer_dispatch.2.2.2.2.2.1 _ (by decide) (by decide),
    timelineNormalizer_dispatch.2.2.2.2.2.2 _ (by decide) (by decide) (by decide) (by decide)⟩

/-- C2: `parseRepository` accepts `"vercel/ai"` as `{vercel, ai}`, and rejects
every string that does not split on `"/"` into exactly two segments (such as
`"vercel"` and `"a/b/c"`) with an error message that contains the offending
value and the expected `"owner/repo"` format. -/
theorem parseRepository_validation :
    parseRepository ("vercel/ai".data) = .ok ⟨"vercel".data, "ai".data⟩ ∧
    (∃ m, parseRepository ("vercel".data) = .error m) ∧
    (∃ m, parseRepository ("a/b/c".data) = .error m) ∧
    (∀ r, (splitOnChar '/' r).length ≠ 2 →
      parseRepository r = .error (invalidRepoMsg r) ∧
      (∃ p q, invalidRepoMsg r = p ++ r ++ q) ∧
      (∃ p q, invalidRepoMsg r = p ++ "owner/repo".data ++ q)) := by
  refine ⟨rfl, ⟨_, rfl⟩, ⟨_, rfl⟩, fun r hr => ⟨?_, ?_, ?_⟩⟩
  · unfold parseRepository
    rw [dif_neg hr]
  · exact ⟨"Invalid repository format: \"".data,
      "\". Expected \"owner/repo\" format (e.g., \"vercel/ai\", \"facebook/react\").".data, rfl⟩
  · refine ⟨"Invalid repository format: \"".data ++ r ++ "\". Expected \"".data,
      "\" format (e.g., \"vercel/ai\", \"facebook/react\").".data, ?_⟩
    simp only [invalidRepoMsg, List.append_assoc]
    congr 1

/-- Witness for C2 at the concrete inputs `"vercel"`. -/
theorem parseRepository_validation_witness :
    parseRepository ("vercel".data) = .error (invalidRepoMsg ("vercel".data)) ∧
    (∃ p q, invalidRepoMsg ("vercel".data) = p ++ "vercel".data ++ q) ∧
    (∃ p q, invalidRepoMsg ("vercel".data) = p ++ "owner/repo".data ++ q) :=
  parseRepository_validation.2.2.2 ("vercel".data) (by decide)

/-- C10: `parseRepository` checks only the segment count, never that the
segments are non-empty: `"vercel/"` yields `{vercel, ""}`, `"/ai"` yields
`{"", ai}`, and in general a string is accepted exactly when it splits on
`"/"` into two segments. -/
theorem parseRepository_empty_segments :
    parseRepository ("vercel/".data) = .ok ⟨"vercel".data, []⟩ ∧
    parseRepository ("/ai".data) = .ok ⟨[], "ai".data⟩ ∧
    (∀ r, (parseRepository r).isOk = true ↔ (splitOnChar '/' r).length = 2) := by
  refine ⟨rfl, rfl, fun r => ?_⟩
  unfold parseRepository
  by_cases h : (splitOnChar '/' r).length = 2
  · rw [dif_pos h]
    simp [Except.isOk, Except.toBool, h]
  · rw [dif_neg h]
    simp [Except.isOk, Except.toBool, h]

/-- Witness for C10 at the concrete input `"a/b"`. -/
theorem parseRepository_empty_segments_witness :
    (parseRepository ("a/b".data)).isOk = true ↔ (splitOnChar '/' "a/b".data).length = 2 :=
  parseRepository_empty_segments.2.2 ("a/b".data)

/-- C3 counterexample: the non-null raw user `{login: "unknown", html_url: ""}`
also normalizes to the fully defaulted User, so the defaulted output does not
characterize null input ("if and only if" fails). -/
theorem parseUser_default_not_iff :
    parseUser (some ⟨some ("unknown".data), some []⟩) = parseUser none ∧
    (some (⟨some ("unknown".data), some []⟩ : RawUser)) ≠ (none : Option RawUser) := by
  constructor
  · rfl
  · intro h
    cases h

/-- C3 (amended): `parseUser` is total, returns the fully defaulted User on
null input, and on non-null input passes through present fields, defaulting
only missing ones — it agrees everywhere with the spec's `normalizeUser`
(though the fully defaulted output can also arise from non-null input). -/
theorem parseUser_eq_spec_normalizeUser :
    ∀ user, parseUser user = spec_normalizeUser user := by
  intro user
  cases user with
  | none => rfl
  | some u => rfl

/-- C9: `parseLabel`/`parseLabels` are total with all three fields populated:
string-form labels become name/empty color/null description, object-form
fields are independently defaulted (absent or null name/color to the empty
string, absent or null description to null), and `parseLabels` maps
element-wise preserving order and length, with empty input giving empty
output. -/
theorem parseLabels_totality_and_shape :
    parseLabels [] = [] ∧
    (∀ labels, (parseLabels labels).length = labels.length) ∧
    (∀ (labels : List RawLabelEntry) (i : Nat),
      (parseLabels labels)[i]? = (labels[i]?).map spec_normalizeLabel) ∧
    (∀ s, parseLabels [.inl s] = [{ name := s, color := [], description := none }]) ∧
    parseLabel ⟨none, none, none⟩ = ⟨[], [], none⟩ ∧
    parseLabel ⟨none, some none, some none⟩ = ⟨[], [], none⟩ ∧
    (∀ n c d, parseLabel ⟨some n, some (some c), some (some d)⟩ = ⟨n, c, some d⟩) := by
  refine ⟨rfl, fun labels => ?_, fun labels i => ?_, fun s => rfl, rfl, rfl, fun n c d => rfl⟩
  · simp [parseLabels]
  · simp only [parseLabels, List.getElem?_map]
    cases h : labels[i]? with
    | none => rfl
    | some entry => cases entry <;> rfl

/-- Witness for C9 at a concrete mixed-form label list. -/
theorem parseLabels_totality_and_shape_witness :
    (parseLabels [.inl ("bug".data), .inr ⟨some ("p1".data), some none, none⟩]).length = 2 ∧
    (parseLabels [.inl ("bug".data)])[0]? = some ⟨"bug".data, [], none⟩ ∧
    parseLabel ⟨some ("p1".data), some (some ("red".data)), some (some ("desc".data))⟩ =
      ⟨"p1".data, "red".data, some ("desc".data)⟩ := by
  refine ⟨parseLabels_totality_and_shape.2.1 _, ?_, parseLabels_totality_and_shape.2.2.2.2.2.2 _ _ _⟩
  have h := parseLabels_totality_and_shape.2.2.1 [.inl ("bug".data)] 0
  simpa using h

/-- Function `getPrStateIcon` (src/utils.ts, lines 25-30): open PRs are Draft/Open by
the draft flag, non-open PRs are Merged/Closed by the truthiness of
`mergedAt`. -/
def getPrStateIcon (state : Str) (draft : Bool) (mergedAt : Option Str) : Str :=
  if state = "open".data then
    if draft then ("📝 Draft".data) else ("🟢 Open".data)
  else
    if optTruthy mergedAt then ("🟣 Merged".data) else ("🔴 Closed".data)

/-- The fields of `PullRequestInfo` (src/github.ts, lines 139-166) consumed by
the verified rendering fragments; the remaining fields are not referenced by
the claims under verification. -/
structure PullRequestInfo where
  state : Str
  draft : Bool
  mergedAt : Option Str
  body : Option Str
deriving DecidableEq

/-- The inline `stateIcon` conditional of the `get_pull_request` handler
(src/mcp-server.ts, lines 512-519). -/
def prStateIcon (pr : PullRequestInfo) : Str :=
  if pr.state = "open".data then
    if pr.draft then ("📝 Draft".data) else ("🟢 Open".data)
  else
    if optTruthy pr.mergedAt then ("🟣 Merged".data) else ("🔴 Closed".data)

/-- C8 counterexample: a non-open pull request whose `mergedAt` is the
non-null empty string renders "Closed", not "Merged" — the code tests
truthiness of `mergedAt`, not non-nullness. -/
theorem getPrStateIcon_empty_mergedAt_counterexample :
    getPrStateIcon ("closed".data) false (some []) = "🔴 Closed".data ∧
    (some ([] : Str)) ≠ (none : Option Str) := by
  refine ⟨rfl, ?_⟩
  intro h
  cases h

/-- C8 (amended): the 4-state icon is Draft/Open for open PRs by the draft
flag, and Merged/Closed for non-open PRs by whether `mergedAt` is truthy
(non-null and non-empty); the `get_pull_request` handler's inline conditional
agrees with `getPrStateIcon` on every pull request. -/
theorem prStateIcon_four_states :
    (∀ pr, prStateIcon pr = getPrStateIcon pr.state pr.draft pr.mergedAt) ∧
    (∀ state draft mergedAt, state = "open".data → draft = true →
      getPrStateIcon state draft mergedAt = "📝 Draft".data) ∧
    (∀ state draft mergedAt, state = "open".data → draft = false →
      getPrStateIcon state draft mergedAt = "🟢 Open".data) ∧
    (∀ state draft mergedAt, state ≠ "open".data → optTruthy mergedAt = true →
      getPrStateIcon state draft mergedAt = "🟣 Merged".data) ∧
    (∀ state draft mergedAt, state ≠ "open".data → optTruthy mergedAt = false →
      getPrStateIcon state draft mergedAt = "🔴 Closed".data) ∧
    getPrStateIcon ("closed".data) false (some ("2024-01-01".data)) = "🟣 Merged".data ∧
    getPrStateIcon ("closed".data) false none = "🔴 Closed".data := by
  refine ⟨fun pr => rfl, ?_, ?_, ?_, ?_, rfl, rfl⟩ <;>
    (intro state draft mergedAt h1 h2; simp [getPrStateIcon, h1, h2])

/-- Witness for C8 at concrete states: a closed PR with a real merge
timestamp is Merged, a closed PR with null `mergedAt` is Closed, an open
draft is Draft. -/
theorem prStateIcon_four_states_witness :
    getPrStateIcon ("closed".data) true (some ("2024-01-01".data)) = "🟣 Merged".data ∧
    getPrStateIcon ("closed".data) true none = "🔴 Closed".data ∧
    getPrStateIcon ("open".data) true none = "📝 Draft".data :=
  ⟨prStateIcon_four_states.2.2.2.1 _ _ _ (by decide) (by decide),
    prStateIcon_four_states.2.2.2.2.1 _ _ _ (by decide) (by decide),
    prStateIcon_four_states.2.1 _ _ _ rfl rfl⟩

/-- Structure `RepoFile` (src/github.ts, lines 51-59). -/
structure RepoFile where
  name : Str
  path : Str
  sha : Str
  size : Nat
  type : Str
  url : Str
  htmlUrl : Str
deriving DecidableEq

/-- Model of JavaScript `a.localeCompare(b)`: a negative/zero/positive number
by the relative order of the strings.  The host's collation is modelled as
case-sensitive code-point order (the collation the spec prescribes for this
comparator); on the all-lowercase ASCII names exercised below every collation
agrees with it. -/
def localeCompare (a b : Str) : Int :=
  if a < b then -1 else if a = b then 0 else 1

/-- The `list_files` sort comparator (src/mcp-server.ts, lines 264-268):
directories first, then by name. -/
def compareFiles (a b : RepoFile) : Int :=
  if a.type = "dir".data ∧ b.type ≠ "dir".data then -1
  else if a.type ≠ "dir".data ∧ b.type = "dir".data then 1
  else localeCompare a.name b.name

/-- The relation saying `a` need not come after `b` for the `list_files` comparator. -/
def fileLe (a b : RepoFile) : Prop := compareFiles a b ≤ 0

instance : DecidableRel fileLe :=
  fun a b => inferInstanceAs (Decidable (compareFiles a b ≤ 0))

theorem localeCompare_nonpos {a b : Str} : localeCompare a b ≤ 0 ↔ a ≤ b := by
  unfold localeCompare
  split_ifs with h1 h2
  · simp [h1.le]
  · simp [h2, le_refl]
  · have hba : b < a := by
      rcases lt_trichotomy a b with h | h | h
      · exact absurd h h1
      · exact absurd h h2
      · exact h
    simp [not_le_of_lt hba]

instance : IsTotal RepoFile fileLe := by
  constructor
  intro a b
  by_cases da : a.type = "dir".data <;> by_cases db : b.type = "dir".data <;>
    simp [fileLe, compareFiles, da, db, localeCompare_nonpos] <;>
    exact le_total a.name b.name

instance : IsTrans RepoFile fileLe := by
  constructor
  intro a b c hab hbc
  by_cases da : a.type = "dir".data <;> by_cases db : b.type = "dir".data <;>
    by_cases dc : c.type = "dir".data <;>
    simp_all [fileLe, compareFiles, localeCompare_nonpos] <;>
    exact le_trans hab hbc

/-- The `.sort(...)` call of the `list_files` handler (src/mcp-server.ts,
lines 263-268), modelled as a stable sort honoring the comparator. -/
def sortFiles (files : List RepoFile) : List RepoFile :=
  files.insertionSort fileLe

/-- The `.map(...)` rendering of one listing entry (src/mcp-server.ts, lines
269-273): folder/file icon, name, size suffix for files only. -/
def renderFileEntry (f : RepoFile) : Str :=
  let icon := if f.type = "dir".data then ("📁".data) else ("📄".data)
  let size := if f.type = "file".data then (" (".data) ++ natToStr f.size ++ " bytes)".data else []
  icon ++ " ".data ++ f.name ++ size

/-- The rendered lines of the `list_files` handler, in output order. -/
def listFilesLines (files : List RepoFile) : List Str :=
  (sortFiles files).map renderFileEntry

/-- The claim's order on two listing entries: no file before a directory, and
names in ascending lexical order within a group. -/
def dirsFirstOrdered (a b : RepoFile) : Prop :=
  (b.type = "dir".data → a.type = "dir".data) ∧
    ((a.type = "dir".data ↔ b.type = "dir".data) → a.name ≤ b.name)

theorem fileLe_imp_dirsFirstOrdered (a b : RepoFile) :
    fileLe a b → dirsFirstOrdered a b := by
  intro h
  unfold fileLe compareFiles at h
  constructor
  · intro hb
    by_contra ha
    simp [ha, hb] at h
  · intro hiff
    by_cases da : a.type = "dir".data
    · have db := hiff.mp da
      simp [da, db, localeCompare_nonpos] at h
      exact h
    · have db : ¬b.type = "dir".data := fun hdb => da (hiff.mpr hdb)
      simp [da, db, localeCompare_nonpos] at h
      exact h

/-- C4: every `list_files` listing is rendered with all directories before
all files and names in ascending case-sensitive lexical order within each
group, the sorted listing is a permutation of the input, and the entries
b(file), a(dir), c(dir) render in the order a, c, b. -/
theorem listFiles_sort_order :
    (∀ files, (sortFiles files).Pairwise dirsFirstOrdered) ∧
    (∀ files, (sortFiles files).Perm files) ∧
    listFilesLines
      [{ name := "b".data, path := "b".data, sha := "s1".data, size := 3
         type := "file".data, url := "u".data, htmlUrl := "h".data },
       { name := "a".data, path := "a".data, sha := "s2".data, size := 0
         type := "dir".data, url := "u".data, htmlUrl := "h".data },
       { name := "c".data, path := "c".data, sha := "s3".data, size := 0
         type := "dir".data, url := "u".data, htmlUrl := "h".data }] =
      ["📁 a".data, "📁 c".data, "📄 b (3 bytes)".data] := by
  refine ⟨fun files => ?_, fun files => List.perm_insertionSort _ _, by decide⟩
  exact (List.sorted_insertionSort fileLe files).imp
    (fun h => fileLe_imp_dirsFirstOrdered _ _ h)

/-- The components of a parsed timestamp. -/
structure DateParts where
  year : Nat
  month : Nat
  day : Nat
  hour : Nat
  minute : Nat
  second : Nat
deriving DecidableEq

/-- Value of a digit string (most significant digit first). -/
def digitsVal (s : Str) : Nat :=
  s.foldl (fun acc c => acc * 10 + (c.toNat - 48)) 0

/-- A non-empty all-digit string parses to its value; anything else fails. -/
def parseDigits (s : Str) : Option Nat :=
  if !s.isEmpty && s.all Char.isDigit then some (digitsVal s) else none

/-- The `YYYY-MM-DD` date component of a timestamp. -/
def parseDatePart (d : Str) : Option (Nat × Nat × Nat) :=
  match splitOnChar '-' d with
  | [y, m, dd] =>
    if y.length = 4 ∧ m.length = 2 ∧ dd.length = 2 then
      match parseDigits y, parseDigits m, parseDigits dd with
      | some yv, some mv, some dv =>
        if 1 ≤ mv ∧ mv ≤ 12 ∧ 1 ≤ dv ∧ dv ≤ 31 then some (yv, mv, dv) else none
      | _, _, _ => none
    else none
  | _ => none

/-- The `HH:MM[:SS]` time component of a timestamp, with an optional trailing
`Z` designator. -/
def parseTimePart (t : Str) : Option (Nat × Nat × Nat) :=
  let core := if t.getLast? = some 'Z' then t.dropLast else t
  match splitOnChar ':' core with
  | [h, mi] =>
    if h.length = 2 ∧ mi.length = 2 then
      match parseDigits h, parseDigits mi with
      | some hv, some mv => if hv ≤ 23 ∧ mv ≤ 59 then some (hv, mv, 0) else none
      | _, _ => none
    else none
  | [h, mi, se] =>
    if h.length = 2 ∧ mi.length = 2 ∧ se.length = 2 then
      match parseDigits h, parseDigits mi, parseDigits se with
      | some hv, some mv, some sv =>
        if hv ≤ 23 ∧ mv ≤ 59 ∧ sv ≤ 59 then some (hv, mv, sv) else none
      | _, _, _ => none
    else none
  | _ => none

/-- Model of the JavaScript builtin `new Date(string)`, from the documented
ECMA-262 Date Time String Format: `YYYY-MM-DD`, optionally followed by
`THH:MM[:SS]` with an optional trailing `Z`.  Strings outside this grammar
(including the empty string) give an Invalid Date, modelled as `none`; the
host time zone is modelled as UTC. -/
def jsParseDate (s : Str) : Option DateParts :=
  match splitOnChar 'T' s with
  | [d] =>
    (parseDatePart d).map fun p =>
      { year := p.1, month := p.2.1, day := p.2.2, hour := 0, minute := 0, second := 0 }
  | [d, t] =>
    match parseDatePart d, parseTimePart t with
    | some p, some q =>
      some { year := p.1, month := p.2.1, day := p.2.2
             hour := q.1, minute := q.2.1, second := q.2.2 }
    | _, _ => none
  | _ => none

/-- The en-US short month names. -/
def monthShortName (m : Nat) : Str :=
  match m with
  | 1 => "Jan".data
  | 2 => "Feb".data
  | 3 => "Mar".data
  | 4 => "Apr".data
  | 5 => "May".data
  | 6 => "Jun".data
  | 7 => "Jul".data
  | 8 => "Aug".data
  | 9 => "Sep".data
  | 10 => "Oct".data
  | 11 => "Nov".data
  | 12 => "Dec".data
  | _ => []

/-- The numeric rendering styles of `toLocaleString` options. -/
inductive NumStyle
  | numeric
  | twoDigit
deriving DecidableEq

/-- Rendering of a number under a `toLocaleString` style option. -/
def renderNumStyle (style : NumStyle) (n : Nat) : Str :=
  match style with
  | .numeric => natToStr n
  | .twoDigit => if n < 10 then '0' :: natToStr n else natToStr n

/-- The option bundle passed to `toLocaleString` by `formatDate`. -/
structure LocaleDateOptions where
  year : NumStyle
  monthIsShort : Bool
  day : NumStyle
  hour : NumStyle
  minute : NumStyle

/-- Model of the JavaScript builtin `Date.prototype.toLocaleString` for the
"en-US" locale with year/month/day/hour/minute options, from its documented
output shape: month day, year, hour:minute AM|PM on a 12-hour clock (en-US
defaults to a 12-hour clock when an hour option is given). -/
def toLocaleStringEnUS (d : DateParts) (o : LocaleDateOptions) : Str :=
  let monthStr := if o.monthIsShort then monthShortName d.month
    else renderNumStyle .numeric d.month
  let hour12 := if d.hour % 12 = 0 then 12 else d.hour % 12
  let ampm := if d.hour < 12 then ("AM".data) else ("PM".data)
  monthStr ++ " ".data ++ renderNumStyle o.day d.day ++ ", ".data ++
    renderNumStyle o.year d.year ++ ", ".data ++ renderNumStyle o.hour hour12 ++
    ":".data ++ renderNumStyle o.minute d.minute ++ " ".data ++ ampm

/-- Function `formatDate` (src/utils.ts, lines 3-11): `new Date(date).toLocaleString`
with en-US, numeric year, short month, numeric day, 2-digit hour and minute.
An Invalid Date value renders as the literal string "Invalid Date". -/
def formatDate (date : Str) : Str :=
  match jsParseDate date with
  | none => "Invalid Date".data
  | some d =>
    toLocaleStringEnUS d
      { year := .numeric, monthIsShort := true, day := .numeric
        hour := .twoDigit, minute := .twoDigit }

/-- The spec's fixed date format (spec §4.2): Month Day, Year, Hour:Minute
AM|PM with a short month name and zero-padded 2-digit hour and minute on a
12-hour clock. -/
def spec_fixedDateFormat (d : DateParts) : Str :=
  let hour12 := if d.hour % 12 = 0 then 12 else d.hour % 12
  monthShortName d.month ++ " ".data ++ natToStr d.day ++ ", ".data ++
    natToStr d.year ++ ", ".data ++
    (if hour12 < 10 then ("0".data) else []) ++ natToStr hour12 ++ ":".data ++
    (if d.minute < 10 then ("0".data) else []) ++ natToStr d.minute ++ " ".data ++
    (if d.hour < 12 then ("AM".data) else ("PM".data))

/-- C5 counterexample: `formatDate` applied to the empty (hence invalid)
timestamp returns the string "Invalid Date", not the empty string. -/
theorem formatDate_empty_counterexample :
    formatDate [] = "Invalid Date".data ∧ formatDate [] ≠ [] := by
  refine ⟨rfl, ?_⟩
  decide

/-- C5 (amended): `formatDate` is total and never throws; every invalid
timestamp (the empty string included) renders as the literal string
"Invalid Date" — not the empty string — and every valid timestamp renders in
the single fixed Month Day, Year, Hour:Minute AM|PM format. -/
theorem formatDate_fixed_format :
    (∀ s, jsParseDate s = none → formatDate s = "Invalid Date".data) ∧
    (∀ s d, jsParseDate s = some d → formatDate s = spec_fixedDateFormat d) := by
  constructor
  · intro s h
    simp [formatDate, h]
  · intro s d h
    simp only [formatDate, h]
    simp only [toLocaleStringEnUS, spec_fixedDateFormat, renderNumStyle]
    split_ifs <;> simp

/-- Witness for C5 at the concrete timestamp `2024-01-15T10:30:00Z`. -/
theorem formatDate_fixed_format_witness :
    jsParseDate ("2024-01-15T10:30:00Z".data) =
      some { year := 2024, month := 1, day := 15, hour := 10, minute := 30, second := 0 } ∧
    formatDate ("2024-01-15T10:30:00Z".data) =
      spec_fixedDateFormat
        { year := 2024, month := 1, day := 15, hour := 10, minute := 30, second := 0 } ∧
    spec_fixedDateFormat
        { year := 2024, month := 1, day := 15, hour := 10, minute := 30, second := 0 } =
      "Jan 15, 2024, 10:30 AM".data :=
  ⟨by decide, formatDate_fixed_format.2 _ _ (by decide), by decide⟩

/-- Milestone of an issue or pull request (`title` and `state`). -/
structure MilestoneInfo where
  title : Str
  state : Str
deriving DecidableEq

/-- Structure `IssueInfo` (src/github.ts, lines 103-118). -/
structure IssueInfo where
  number : Nat
  title : Str
  state : Str
  body : Option Str
  user : IssueUser
  labels : List IssueLabel
  assignees : List IssueUser
  milestone : Option MilestoneInfo
  createdAt : Str
  updatedAt : Str
  closedAt : Option Str
  htmlUrl : Str
  commentsCount : Nat
  timeline : List IssueTimelineEvent
deriving DecidableEq

/-- The optional Closed line of the issue header (src/mcp-server.ts, line
392): present only when `closedAt` is truthy. -/
def issueClosedLine (issue : IssueInfo) : Option Str :=
  if optTruthy issue.closedAt then
    some ("**Closed:** ".data ++ formatDate (issue.closedAt.getD []))
  else none

/-- The optional Labels line of the issue header (src/mcp-server.ts, lines
394-396): present only when the label list is non-empty. -/
def issueLabelsLine (issue : IssueInfo) : Option Str :=
  if issue.labels.length > 0 then
    some ("**Labels:** ".data ++
      joinWith (", ".data) (issue.labels.map fun l => "`".data ++ l.name ++ "`".data))
  else none

/-- The optional Assignees line of the issue header (src/mcp-server.ts, lines
397-399). -/
def issueAssigneesLine (issue : IssueInfo) : Option Str :=
  if issue.assignees.length > 0 then
    some ("**Assignees:** ".data ++
      joinWith (", ".data) (issue.assignees.map fun a => "@".data ++ a.login))
  else none

/-- The optional Milestone line of the issue header (src/mcp-server.ts, line
400). -/
def issueMilestoneLine (issue : IssueInfo) : Option Str :=
  match issue.milestone with
  | some m => some ("**Milestone:** ".data ++ m.title)
  | none => none

/-- The issue header array (src/mcp-server.ts, lines 385-403) before its
`.filter(Boolean)`. -/
def issueHeaderLines (issue : IssueInfo) : List (Option Str) :=
  [some ("# #".data ++ natToStr issue.number ++ ": ".data ++ issue.title),
   some [],
   some ("**State:** ".data ++
     (if issue.state = "open".data then ("🟢 Open".data) else ("🔴 Closed".data))),
   some ("**Author:** @".data ++ issue.user.login),
   some ("**Created:** ".data ++ formatDate issue.createdAt),
   some ("**Updated:** ".data ++ formatDate issue.updatedAt),
   issueClosedLine issue,
   some [],
   issueLabelsLine issue,
   issueAssigneesLine issue,
   issueMilestoneLine issue,
   some [],
   some ("🔗 ".data ++ issue.htmlUrl)]

/-- The issue header block (src/mcp-server.ts, lines 385-405):
`.filter(Boolean).join("\n")`. -/
def issueHeader (issue : IssueInfo) : Str :=
  joinWith ("\n".data) (jsFilterBoolean (issueHeaderLines issue))

/-- The issue description block (src/mcp-server.ts, lines 407-409): a
Description section when the body is truthy, the empty string otherwise. -/
def issueBodySection (body : Option Str) : Str :=
  if optTruthy body then ("\n---\n\n## Description\n\n".data) ++ body.getD [] else []

/-- The per-event rendering switch of the `get_issue` handler
(src/mcp-server.ts, lines 413-447). -/
def renderTimelineItem (event : IssueTimelineEvent) : Str :=
  let time := formatDate event.createdAt
  let actor := match event.actor with
    | some a => "@".data ++ a.login
    | none => "someone".data
  if event.type = "commented".data then
    "### 💬 ".data ++ actor ++ " commented on ".data ++ time ++ "\n\n".data ++
      jsOr event.body ("(empty comment)".data)
  else if event.type = "labeled".data then
    "🏷️ ".data ++ actor ++ " added label `".data ++
      jsShowOpt (event.label.map IssueLabel.name) ++ "` on ".data ++ time
  else if event.type = "unlabeled".data then
    "🏷️ ".data ++ actor ++ " removed label `".data ++
      jsShowOpt (event.label.map IssueLabel.name) ++ "` on ".data ++ time
  else if event.type = "assigned".data then
    "👤 ".data ++ actor ++ " assigned @".data ++
      jsShowOpt (event.assignee.map IssueUser.login) ++ " on ".data ++ time
  else if event.type = "unassigned".data then
    "👤 ".data ++ actor ++ " unassigned @".data ++
      jsShowOpt (event.assignee.map IssueUser.login) ++ " on ".data ++ time
  else if event.type = "milestoned".data then
    "🎯 ".data ++ actor ++ " added to milestone \"".data ++
      jsShowOpt (event.milestone.map TitleOnly.title) ++ "\" on ".data ++ time
  else if event.type = "demilestoned".data then
    "🎯 ".data ++ actor ++ " removed from milestone \"".data ++
      jsShowOpt (event.milestone.map TitleOnly.title) ++ "\" on ".data ++ time
  else if event.type = "renamed".data then
    "✏️ ".data ++ actor ++ " changed title from \"".data ++
      jsShowOpt (event.rename.map RawRename.from_) ++ "\" to \"".data ++
      jsShowOpt (event.rename.map RawRename.to_) ++ "\" on ".data ++ time
  else if event.type = "closed".data then
    "🔴 ".data ++ actor ++ " closed this issue on ".data ++ time
  else if event.type = "reopened".data then
    "🟢 ".data ++ actor ++ " reopened this issue on ".data ++ time
  else if event.type = "cross-referenced".data then
    "🔗 Referenced in #".data ++
      jsShowOptInt (event.source.map fun s => s.issue.number) ++ ": ".data ++
      jsShowOpt (event.source.map fun s => s.issue.title) ++ " on ".data ++ time
  else if event.type = "referenced".data then
    "📝 ".data ++ actor ++ " referenced this in commit `".data ++
      jsShowOpt (event.commitId.map (List.take 7)) ++ "` on ".data ++ time
  else if event.type = "committed".data then
    "📝 Commit `".data ++ jsShowOpt (event.commitId.map (List.take 7)) ++
      "` on ".data ++ time
  else
    "📋 ".data ++ event.type ++ " by ".data ++ actor ++ " on ".data ++ time

/-- The rendered timeline items of the `get_issue` handler (src/mcp-server.ts,
lines 411-447): events with a falsy `createdAt` are filtered out before
rendering. -/
def issueTimelineItems (issue : IssueInfo) : List Str :=
  (issue.timeline.filter fun e => strTruthy e.createdAt).map renderTimelineItem

/-- The Timeline block (src/mcp-server.ts, lines 449-452): present only when
at least one item rendered. -/
def issueTimelineSection (issue : IssueInfo) : Str :=
  let items := issueTimelineItems issue
  if items.length > 0 then
    "\n---\n\n## Timeline\n\n".data ++ joinWith ("\n\n".data) items
  else []

/-- The full `get_issue` response text (src/mcp-server.ts, line 458):
header, then description block, then timeline block. -/
def renderIssue (issue : IssueInfo) : Str :=
  issueHeader issue ++ issueBodySection issue.body ++ issueTimelineSection issue

/-- The pull-request description block (src/mcp-server.ts, line 550). -/
def prBodySection (body : Option Str) : Str :=
  if optTruthy body then ("\n---\n\n## Description\n\n".data) ++ body.getD [] else []

/-- Structure `RepoInfo` (src/github.ts, lines 61-76); the `private` field is renamed
`private_` because `private` is a Lean keyword. -/
structure RepoInfo where
  id : Int
  name : Str
  fullName : Str
  description : Option Str
  private_ : Bool
  htmlUrl : Str
  language : Option Str
  defaultBranch : Str
  stargazersCount : Nat
  forksCount : Nat
  openIssuesCount : Nat
  topics : List Str
  createdAt : Option Str
  updatedAt : Option Str
deriving DecidableEq

/-- The description line of the `get_repo_info` handler (src/mcp-server.ts,
line 317): `info.description || "(No description)"`. -/
def repoDescriptionLine (info : RepoInfo) : Str :=
  jsOr info.description ("(No description)".data)

/-- The `get_repo_info` response text (src/mcp-server.ts, lines 314-327). -/
def repoInfoText (info : RepoInfo) : Str :=
  joinWith ("\n".data)
    ["# ".data ++ info.fullName,
     [],
     repoDescriptionLine info,
     [],
     "🌐 ".data ++ info.htmlUrl,
     "⭐ ".data ++ natToStr info.stargazersCount ++ " stars | 🍴 ".data ++
       natToStr info.forksCount ++ " forks | 🔓 ".data ++
       natToStr info.openIssuesCount ++ " issues".data,
     "🔤 Language: ".data ++ jsOr info.language ("Not specified".data),
     "🌿 Default branch: ".data ++ info.defaultBranch,
     "🏷️ Topics: ".data ++
       (if info.topics.length > 0 then joinWith (", ".data) info.topics else ("None".data)),
     [],
     "Created: ".data ++ jsShowNullable info.createdAt,
     "Updated: ".data ++ jsShowNullable info.updatedAt]

theorem issueBodySection_of_falsy (body : Option Str) (h : optTruthy body = false) :
    issueBodySection body = [] := by
  simp [issueBodySection, h]

theorem prBodySection_of_falsy (body : Option Str) (h : optTruthy body = false) :
    prBodySection body = [] := by
  simp [prBodySection, h]

/-- C6 counterexample: the issue and pull-request renderers do not emit the
"(No description)" placeholder for an absent body — their description block is
the empty string, i.e. the section is omitted entirely. -/
theorem body_placeholder_counterexample :
    issueBodySection none = [] ∧ prBodySection none = [] ∧
    issueBodySection none ≠ "(No description)".data := by
  refine ⟨rfl, rfl, ?_⟩
  decide

/-- C6 (amended): metadata sections with an empty/null/absent backing value
(labels, assignees, milestone, closed timestamp) are omitted silently; the
`get_repo_info` (and `find_repo`) renderers substitute "(No description)" for
an absent description and hence always render something there, while the
issue and pull-request renderers omit the description block entirely when the
body is absent or empty. -/
theorem renderers_optional_sections :
    (∀ issue, issueLabelsLine issue = none ↔ issue.labels = []) ∧
    (∀ issue, issueAssigneesLine issue = none ↔ issue.assignees = []) ∧
    (∀ issue, issueMilestoneLine issue = none ↔ issue.milestone = none) ∧
    (∀ issue, issueClosedLine issue = none ↔ optTruthy issue.closedAt = false) ∧
    (∀ body, optTruthy body = false → issueBodySection body = []) ∧
    (∀ body, optTruthy body = false → prBodySection body = []) ∧
    (∀ info, optTruthy info.description = false →
      repoDescriptionLine info = "(No description)".data) ∧
    (∀ info, repoDescriptionLine info ≠ []) := by
  refine ⟨?_, ?_, ?_, ?_, issueBodySection_of_falsy, prBodySection_of_falsy, ?_, ?_⟩
  · intro issue
    unfold issueLabelsLine
    split_ifs with h
    · simp [List.length_pos.mp h]
    · have hnil : issue.labels = [] := by
        cases hl : issue.labels with
        | nil => rfl
        | cons a l => rw [hl] at h; simp at h
      simp [hnil]
  · intro issue
    unfold issueAssigneesLine
    split_ifs with h
    · simp [List.length_pos.mp h]
    · have hnil : issue.assignees = [] := by
        cases hl : issue.assignees with
        | nil => rfl
        | cons a l => rw [hl] at h; simp at h
      simp [hnil]
  · intro issue
    cases hm : issue.milestone <;> simp [issueMilestoneLine, hm]
  · intro issue
    unfold issueClosedLine
    split_ifs with h <;> simp [h]
  · intro info h
    simp [repoDescriptionLine, jsOr, h]
  · intro info
    unfold repoDescriptionLine jsOr
    split_ifs with h
    · cases hd : info.description with
      | none => rw [hd] at h; simp [optTruthy] at h
      | some v =>
        rw [hd] at h
        simp [optTruthy, strTruthy] at h
        simpa using h
    · decide

/-- Witness for C6 at concrete values: an absent issue body renders nothing,
an absent PR body renders nothing, and an absent repository description
renders the placeholder. -/
theorem renderers_optional_sections_witness :
    issueBodySection none = [] ∧ prBodySection none = [] ∧
    repoDescriptionLine
      { id := 1, name := "ai".data, fullName := "vercel/ai".data, description := none
        private_ := false, htmlUrl := "h".data, language := none
        defaultBranch := "main".data, stargazersCount := 0, forksCount := 0
        openIssuesCount := 0, topics := [], createdAt := none, updatedAt := none } =
      "(No description)".data :=
  ⟨renderers_optional_sections.2.2.2.2.1 none rfl,
    renderers_optional_sections.2.2.2.2.2.1 none rfl,
    renderers_optional_sections.2.2.2.2.2.2.1 _ rfl⟩

/-- C7: timeline events with an empty `createdAt` are excluded from the
rendered timeline (rendering is invariant under pre-filtering them away)
while `parseTimelineEvents` keeps every raw event in the normalized
collection; and an issue with no truthy body and no renderable timeline
events renders as the header block alone. -/
theorem issue_timeline_render_filter :
    (∀ events, (parseTimelineEvents events).length = events.length) ∧
    (∀ issue, issueTimelineItems issue =
      issueTimelineItems
        { issue with timeline := issue.timeline.filter fun e => strTruthy e.createdAt }) ∧
    (∀ issue, optTruthy issue.body = false →
      (∀ e ∈ issue.timeline, e.createdAt = []) →
      renderIssue issue = issueHeader issue) := by
  refine ⟨?_, ?_, ?_⟩
  · intro events
    simp [parseTimelineEvents]
  · intro issue
    simp [issueTimelineItems, List.filter_filter]
  · intro issue hbody hevents
    have hfilter : issue.timeline.filter (fun e => strTruthy e.createdAt) = [] := by
      rw [List.filter_eq_nil_iff]
      intro e he
      simp [strTruthy, hevents e he]
    unfold renderIssue
    rw [issueBodySection_of_falsy _ hbody]
    unfold issueTimelineSection
    simp [issueTimelineItems, hfilter]

/-- Witness for C7 at a concrete issue whose body is absent and whose single
timeline event has an empty `createdAt`. -/
theorem issue_timeline_render_filter_witness :
    renderIssue
      { number := 7, title := "t".data, state := "open".data, body := none
        user := ⟨"u".data, []⟩, labels := [], assignees := [], milestone := none
        createdAt := "x".data, updatedAt := "y".data, closedAt := none
        htmlUrl := "h".data, commentsCount := 0
        timeline := [{ type := "commented".data, createdAt := [], actor := none
                       body := some ("hello".data), label := none, assignee := none
                       milestone := none, rename := none, source := none
                       commitId := none, commitUrl := none }] } =
    issueHeader
      { number := 7, title := "t".data, state := "open".data, body := none
        user := ⟨"u".data, []⟩, labels := [], assignees := [], milestone := none
        createdAt := "x".data, updatedAt := "y".data, closedAt := none
        htmlUrl := "h".data, commentsCount := 0
        timeline := [{ type := "commented".data, createdAt := [], actor := none
                       body := some ("hello".data), label := none, assignee := none
                       milestone := none, rename := none, source := none
                       commitId := none, commitUrl := none }] } :=
  issue_timeline_render_filter.2.2 _ (by decide) (by decide)
